import Mathlib

/-!
Shallow embedding of the numerical core of the tPACE C++ extension
(`interp2lin`, `Rmullwlsk`, `Rrotatedmullwlsk`).  The repository fragment
under `src/` contains only the generated binding glue
(`src/src/RcppExports.cpp`), which fixes the call signatures; the numerical
bodies are not part of the fragment, so every definition below is modelled
from the specification's description of the algorithms.  Real numbers are
embedded as rationals `ℚ` so that all definitions are executable; the
floating-point "no-estimate sentinel" (NaN) is embedded as `Option.none`.
-/

namespace TPACE

/-- Modelled from the spec: the error kinds of section 7 (the binding layer
reports structural and configuration failures as a single failure for the
whole call).  `InsufficientLocalData` is deliberately absent: per the spec it
is a per-cell sentinel, not a thrown error. -/
inductive SmoothError where
  | DimensionMismatch
  | UnknownKernel
  | InvalidBandwidth
  | InvalidPolynomialOrder
deriving DecidableEq

/-- Modelled from the spec: the closed enumerated set of kernel families
(Gaussian, Epanechnikov, uniform/rectangular, quartic, triangular). -/
inductive KernelType where
  | gauss
  | epan
  | rect
  | quar
  | tri
deriving DecidableEq

/-- Modelled from the spec: kernel selection by name over the fixed
enumerated set; an unrecognized identifier is a configuration error
(`none` here, leading to `UnknownKernel`).  The spec leaves the exact
spelling open, so short lower-case names are fixed here. -/
def kernelOfName (s : String) : Option KernelType :=
  if s = "gauss" then some KernelType.gauss
  else if s = "epan" then some KernelType.epan
  else if s = "rect" then some KernelType.rect
  else if s = "quar" then some KernelType.quar
  else if s = "tri" then some KernelType.tri
  else none

/-- Absolute value on ℚ, written explicitly so that all definitions reduce
by computation. -/
def qabs (x : ℚ) : ℚ := if x < 0 then -x else x

/-- Modelled from the spec: the one-dimensional kernel profile at the
normalized distance `u = (coordinate - center)/bandwidth`; nonnegative, and
zero outside the support for the compactly supported families.  The
transcendental Gaussian profile `exp (-u^2/2)` is represented by a positive
rational surrogate (the reciprocal of a truncated series of `exp (u^2/2)`),
since the spec fixes the family set but no claim depends on its values. -/
def kernelProfile : KernelType → ℚ → ℚ
  | KernelType.rect, u => if qabs u ≤ 1 then 1/2 else 0
  | KernelType.epan, u => if qabs u ≤ 1 then 3/4 * (1 - u^2) else 0
  | KernelType.quar, u => if qabs u ≤ 1 then 15/16 * (1 - u^2)^2 else 0
  | KernelType.tri, u => if qabs u ≤ 1 then 1 - qabs u else 0
  | KernelType.gauss, u => 1 / (1 + u^2/2 + u^4/8 + u^6/48)

/-! ## GridInterpolator (`interp2lin`) -/

/-- Modelled from the spec: clamp a query coordinate to the grid bounds
`[xs[0], xs[len-1]]` (boundary values are held, never extrapolated).  On an
empty axis the coordinate is returned unchanged. -/
def clampQ (xs : List ℚ) (q : ℚ) : ℚ :=
  max (xs.getD 0 q) (min (xs.getD (xs.length - 1) q) q)

/-- Modelled from the spec: locate the bracketing grid cell for a query
coordinate: the largest index whose grid value is `≤ q`, clamped to the
valid cell range `[0, len-2]`. -/
def cellIdx (xs : List ℚ) (q : ℚ) : Nat :=
  min (xs.countP (fun a => decide (a ≤ q)) - 1) (xs.length - 2)

/-- Modelled from the spec: the linear blending fraction of the query inside
its bracketing cell. -/
def cellFrac (xs : List ℚ) (q : ℚ) : ℚ :=
  (q - xs.getD (cellIdx xs q) 0) /
    (xs.getD (cellIdx xs q + 1) 0 - xs.getD (cellIdx xs q) 0)

/-- Linear interpolation between two values with blending fraction `t`. -/
def lerp (a b t : ℚ) : ℚ := (1 - t) * a + t * b

/-- Modelled from the spec: bilinear interpolation of the flattened value
grid `zin` (column-major: entry `(i, j)` lives at flat index
`j * length xin + i`) at one query point: clamp the coordinate, find the
bracketing cell on each axis, interpolate along the x-axis at both
bracketing rows, then interpolate the two results along the y-axis. -/
def interpAt (xin yin zin : List ℚ) (qx qy : ℚ) : ℚ :=
  let M := xin.length
  let cx := clampQ xin qx
  let cy := clampQ yin qy
  let i := cellIdx xin cx
  let j := cellIdx yin cy
  let tx := cellFrac xin cx
  let ty := cellFrac yin cy
  let z := fun a b => zin.getD (b * M + a) 0
  lerp (lerp (z i j) (z (i + 1) j) tx) (lerp (z i (j + 1)) (z (i + 1) (j + 1)) tx) ty

/-- Modelled from the spec: `interp2lin`.  The binding glue fixes `zin` as a
flat vector; the shape check demands `length zin = length xin * length yin`
and equally long query vectors, failing with `DimensionMismatch` otherwise. -/
def interp2lin (xin yin zin xou you : List ℚ) : Except SmoothError (List ℚ) :=
  if zin.length = xin.length * yin.length ∧ xou.length = you.length then
    Except.ok ((xou.zip you).map fun p => interpAt xin yin zin p.1 p.2)
  else Except.error SmoothError.DimensionMismatch

/-! ## LocalLinearSmoother2D (`mullwlsk`) -/

/-- An observation: coordinate pair, observed value `z`, observation weight
`w`, in the shape produced by zipping the parallel input arrays. -/
abbrev Obs := (ℚ × ℚ) × ℚ × ℚ

/-- Modelled from the spec: the rectangular bandwidth window around a grid
point `g`: all observations with `|x - gx| ≤ bw_x` and `|y - gy| ≤ bw_y`. -/
def window (bw : ℚ × ℚ) (obs : List Obs) (g : ℚ × ℚ) : List Obs :=
  obs.filter fun o =>
    decide (qabs (o.1.1 - g.1) ≤ bw.1) && decide (qabs (o.1.2 - g.2) ≤ bw.2)

/-- Number of distinct coordinate points among a list of observations. -/
def distinctPts (W : List Obs) : Nat := (W.map (fun o => o.1)).dedup.length

/-- Modelled from the spec: the total weight of an observation relative to a
query point: the product of the per-axis kernel evaluations at the
normalized distances, scaled by the observation's own weight. -/
def kwt (kt : KernelType) (bw : ℚ × ℚ) (g : ℚ × ℚ) (o : Obs) : ℚ :=
  kernelProfile kt ((o.1.1 - g.1) / bw.1) *
    kernelProfile kt ((o.1.2 - g.2) / bw.2) * o.2.2

/-- Weighted sum of `f` over a list of observations, each term scaled by the
observation's kernel weight. -/
def wS (kt : KernelType) (bw g : ℚ × ℚ) (W : List Obs) (f : Obs → ℚ) : ℚ :=
  (W.map fun o => kwt kt bw g o * f o).sum

/-- Determinant of a 3×3 matrix given entrywise. -/
def det3 (m00 m01 m02 m10 m11 m12 m20 m21 m22 : ℚ) : ℚ :=
  m00 * (m11 * m22 - m12 * m21) - m01 * (m10 * m22 - m12 * m20) +
    m02 * (m10 * m21 - m11 * m20)

/-- Modelled from the spec: determinant of the 3×3 normal-equation matrix of
the local weighted least-squares fit with design rows
`[1, x - gx, y - gy]`. -/
def detW (kt : KernelType) (bw g : ℚ × ℚ) (W : List Obs) : ℚ :=
  det3 (wS kt bw g W fun _ => 1)
    (wS kt bw g W fun o => o.1.1 - g.1)
    (wS kt bw g W fun o => o.1.2 - g.2)
    (wS kt bw g W fun o => o.1.1 - g.1)
    (wS kt bw g W fun o => (o.1.1 - g.1) * (o.1.1 - g.1))
    (wS kt bw g W fun o => (o.1.1 - g.1) * (o.1.2 - g.2))
    (wS kt bw g W fun o => o.1.2 - g.2)
    (wS kt bw g W fun o => (o.1.1 - g.1) * (o.1.2 - g.2))
    (wS kt bw g W fun o => (o.1.2 - g.2) * (o.1.2 - g.2))

/-- Modelled from the spec: the Cramer numerator of the intercept of the
local weighted least-squares solution: the normal-equation matrix with its
first column replaced by the weighted-response vector. -/
def numW (kt : KernelType) (bw g : ℚ × ℚ) (W : List Obs) : ℚ :=
  det3 (wS kt bw g W fun o => o.2.1)
    (wS kt bw g W fun o => o.1.1 - g.1)
    (wS kt bw g W fun o => o.1.2 - g.2)
    (wS kt bw g W fun o => (o.1.1 - g.1) * o.2.1)
    (wS kt bw g W fun o => (o.1.1 - g.1) * (o.1.1 - g.1))
    (wS kt bw g W fun o => (o.1.1 - g.1) * (o.1.2 - g.2))
    (wS kt bw g W fun o => (o.1.2 - g.2) * o.2.1)
    (wS kt bw g W fun o => (o.1.1 - g.1) * (o.1.2 - g.2))
    (wS kt bw g W fun o => (o.1.2 - g.2) * (o.1.2 - g.2))

/-- Modelled from the spec: the local weighted least-squares estimate at one
grid point: `none` (the no-estimate sentinel) when fewer than 3 distinct
coordinate points fall in the window or when the local normal equations are
singular; otherwise the intercept of the 3-parameter solution. -/
def localFit (kt : KernelType) (bw : ℚ × ℚ) (obs : List Obs) (g : ℚ × ℚ) :
    Option ℚ :=
  if distinctPts (window bw obs g) < 3 then none
  else if detW kt bw g (window bw obs g) = 0 then none
  else some (numW kt bw g (window bw obs g) / detW kt bw g (window bw obs g))

/-- Result of a `mullwlsk` call: either the pass/fail signal of a bandwidth
validity probe, or the full smoothed surface (rows indexed by `xgrid`,
columns by `ygrid`, sentinel cells `none`). -/
inductive MullResult where
  | checked (pass : Bool)
  | surface (S : List (List (Option ℚ)))
deriving DecidableEq

/-- Modelled from the spec: the body of `mullwlsk` after kernel dispatch.
The bandwidth sign is checked before any smoothing; with `bwCheck` set the
call only probes whether every grid point's window holds at least 3
distinct coordinate points; otherwise it computes the full surface of local
fits over the zipped observation list. -/
def mullwlskBody (bw : ℚ × ℚ) (kt : KernelType) (tPairs : List (ℚ × ℚ))
    (cxxn win xgrid ygrid : List ℚ) (bwCheck : Bool) :
    Except SmoothError MullResult :=
  if 0 < bw.1 ∧ 0 < bw.2 then
    if bwCheck then
      Except.ok (MullResult.checked (xgrid.all fun gx =>
        ygrid.all fun gy =>
          decide (3 ≤ distinctPts (window bw (tPairs.zip (cxxn.zip win)) (gx, gy)))))
    else
      Except.ok (MullResult.surface (xgrid.map fun gx =>
        ygrid.map fun gy => localFit kt bw (tPairs.zip (cxxn.zip win)) (gx, gy)))
  else Except.error SmoothError.InvalidBandwidth

/-- Modelled from the spec: `mullwlsk`.  Structural checks (array lengths,
then kernel name) run before any smoothing, reporting a single failure for
the whole call. -/
def mullwlsk (bw : ℚ × ℚ) (kernel : String) (tPairs : List (ℚ × ℚ))
    (cxxn win xgrid ygrid : List ℚ) (bwCheck : Bool) :
    Except SmoothError MullResult :=
  if tPairs.length = cxxn.length ∧ cxxn.length = win.length then
    match kernelOfName kernel with
    | none => Except.error SmoothError.UnknownKernel
    | some kt => mullwlskBody bw kt tPairs cxxn win xgrid ygrid bwCheck
  else Except.error SmoothError.DimensionMismatch

/-! ## RotatedLocalLinearSmoother2D (`rotatedmullwlsk`) -/

/-- Modelled from the spec: the 45°-rotated coordinates of a point — the
difference and the sum of its components. -/
def rotXY (p : ℚ × ℚ) : ℚ × ℚ := (p.1 - p.2, p.1 + p.2)

/-- Rotated offsets of an observation's coordinates relative to a query
point. -/
def rotOff (q : ℚ × ℚ) (o : Obs) : ℚ × ℚ :=
  ((rotXY o.1).1 - (rotXY q).1, (rotXY o.1).2 - (rotXY q).2)

/-- Modelled from the spec: the bandwidth window of the rotated smoother,
evaluated on the rotated offsets. -/
def rotWindow (bw : ℚ × ℚ) (obs : List Obs) (q : ℚ × ℚ) : List Obs :=
  obs.filter fun o =>
    decide (qabs ((rotOff q o).1) ≤ bw.1) && decide (qabs ((rotOff q o).2) ≤ bw.2)

/-- Modelled from the spec: kernel weight of an observation for the rotated
smoother, from the rotated offsets. -/
def rotKwt (kt : KernelType) (bw : ℚ × ℚ) (q : ℚ × ℚ) (o : Obs) : ℚ :=
  kernelProfile kt ((rotOff q o).1 / bw.1) *
    kernelProfile kt ((rotOff q o).2 / bw.2) * o.2.2

/-- Modelled from the spec: design-matrix row in the rotated offsets `u, v`:
local linear for `npoly = 1`, local quadratic for `npoly = 2`. -/
def designRow : Nat → ℚ → ℚ → List ℚ
  | 1, u, v => [1, u, v]
  | 2, u, v => [1, u, v, u^2, u*v, v^2]
  | _, _, _ => []

/-- Modelled from the spec: the local polynomial estimate of the rotated
smoother at one query point: sentinel `none` on a degenerate window or a
singular weighted normal-equation system, otherwise the intercept of the
weighted least-squares solution (computed through the adjugate). -/
def rotFit (kt : KernelType) (bw : ℚ × ℚ) (npoly : Nat) (obs : List Obs)
    (q : ℚ × ℚ) : Option ℚ :=
  let W := rotWindow bw obs q
  if distinctPts W < 3 then none
  else
    let m := (designRow npoly 0 0).length
    let row := fun o : Obs => designRow npoly (rotOff q o).1 (rotOff q o).2
    let A : Matrix (Fin m) (Fin m) ℚ := Matrix.of fun p r =>
      (W.map fun o => rotKwt kt bw q o * (row o).getD p 0 * (row o).getD r 0).sum
    let b : Fin m → ℚ := fun p =>
      (W.map fun o => rotKwt kt bw q o * (row o).getD p 0 * o.2.1).sum
    if h : 0 < m then
      if A.det = 0 then none
      else some ((A.det⁻¹ • A.adjugate.mulVec b) ⟨0, h⟩)
    else none

/-- Result of a `rotatedmullwlsk` call: the pass/fail signal of a bandwidth
validity probe, or one estimate per query point (sentinel cells `none`). -/
inductive RotResult where
  | checked (pass : Bool)
  | estimates (v : List (Option ℚ))
deriving DecidableEq

/-- Modelled from the spec: the body of `rotatedmullwlsk` after kernel
dispatch.  Bandwidth sign and polynomial order (in {1, 2}) are checked
before any smoothing; the full pass maps the rotated local fit over the
arbitrary query point set `xygrid`. -/
def rotatedmullwlskBody (bw : ℚ × ℚ) (kt : KernelType) (tPairs : List (ℚ × ℚ))
    (cxxn win : List ℚ) (xygrid : List (ℚ × ℚ)) (npoly : Nat)
    (bwCheck : Bool) : Except SmoothError RotResult :=
  if 0 < bw.1 ∧ 0 < bw.2 then
    if npoly = 1 ∨ npoly = 2 then
      if bwCheck then
        Except.ok (RotResult.checked (xygrid.all fun q =>
          decide (3 ≤ distinctPts (rotWindow bw (tPairs.zip (cxxn.zip win)) q))))
      else
        Except.ok (RotResult.estimates (xygrid.map fun q =>
          rotFit kt bw npoly (tPairs.zip (cxxn.zip win)) q))
    else Except.error SmoothError.InvalidPolynomialOrder
  else Except.error SmoothError.InvalidBandwidth

/-- Modelled from the spec: `rotatedmullwlsk`.  Structural checks (array
lengths, then kernel name) run before any smoothing, reporting a single
failure for the whole call. -/
def rotatedmullwlsk (bw : ℚ × ℚ) (kernel : String) (tPairs : List (ℚ × ℚ))
    (cxxn win : List ℚ) (xygrid : List (ℚ × ℚ)) (npoly : Nat)
    (bwCheck : Bool) : Except SmoothError RotResult :=
  if tPairs.length = cxxn.length ∧ cxxn.length = win.length then
    match kernelOfName kernel with
    | none => Except.error SmoothError.UnknownKernel
    | some kt => rotatedmullwlskBody bw kt tPairs cxxn win xygrid npoly bwCheck
  else Except.error SmoothError.DimensionMismatch

/-! ## Helper lemmas for the interpolator -/

lemma getD_get (xs : List ℚ) (d : ℚ) (n : ℕ) (hn : n < xs.length) :
    xs.getD n d = xs.get ⟨n, hn⟩ := by
  rw [List.getD_eq_getElem _ _ hn]
  exact (List.get_eq_getElem xs ⟨n, hn⟩).symm

lemma countP_le_get : ∀ (xs : List ℚ), xs.Sorted (· < ·) →
    ∀ (i : ℕ) (hi : i < xs.length),
      xs.countP (fun a => decide (a ≤ xs.get ⟨i, hi⟩)) = i + 1 := by
  intro xs
  induction xs with
  | nil => intro _ i hi; simp at hi
  | cons x t ih =>
    intro hs i hi
    rcases List.sorted_cons.mp hs with ⟨hx, hst⟩
    cases i with
    | zero =>
      rw [List.countP_cons]
      have hget : (x :: t).get ⟨0, hi⟩ = x := rfl
      rw [hget]
      have h0 : t.countP (fun a => decide (a ≤ x)) = 0 := by
        apply List.countP_eq_zero.mpr
        intro a ha
        simp [not_le.mpr (hx a ha)]
      rw [h0]
      simp
    | succ n =>
      have hn : n < t.length := Nat.lt_of_succ_lt_succ hi
      rw [List.countP_cons]
      have hget : (x :: t).get ⟨n + 1, hi⟩ = t.get ⟨n, hn⟩ := rfl
      rw [hget, ih hst n hn]
      have hxle : x ≤ t[n] := by
        have := le_of_lt (hx _ (List.get_mem t n hn))
        simpa [List.get_eq_getElem] using this
      simp [hxle]

lemma clampQ_eq (xs : List ℚ) (h0 : 0 < xs.length) (q : ℚ) :
    clampQ xs q =
      max (xs.get ⟨0, h0⟩)
        (min (xs.get ⟨xs.length - 1, Nat.sub_lt h0 one_pos⟩) q) := by
  unfold clampQ
  rw [getD_get _ q 0 h0, getD_get _ q _ (Nat.sub_lt h0 one_pos)]

lemma clamp_core (a b q : ℚ) (hab : a ≤ b) :
    max a (min b (max a (min b q))) = max a (min b q) := by
  have h1 : a ≤ max a (min b q) := le_max_left _ _
  have h2 : max a (min b q) ≤ b := max_le hab (min_le_left _ _)
  rw [min_eq_right h2, max_eq_right h1]

lemma get_le_get (xs : List ℚ) (hs : xs.Sorted (· < ·)) (i j : ℕ)
    (hi : i < xs.length) (hj : j < xs.length) (hij : i ≤ j) :
    xs.get ⟨i, hi⟩ ≤ xs.get ⟨j, hj⟩ := by
  rcases Nat.lt_or_ge i j with h | h
  · exact le_of_lt (hs.rel_get_of_lt (Fin.mk_lt_mk.mpr h))
  · have : i = j := le_antisymm hij h
    subst this
    exact le_refl _

lemma clampQ_idem (xs : List ℚ) (hs : xs.Sorted (· < ·)) (q : ℚ) :
    clampQ xs (clampQ xs q) = clampQ xs q := by
  cases xs with
  | nil => simp [clampQ]
  | cons a t =>
    have h0 : 0 < (a :: t).length := by simp
    have hab : (a :: t).get ⟨0, h0⟩ ≤
        (a :: t).get ⟨(a :: t).length - 1, Nat.sub_lt h0 one_pos⟩ :=
      get_le_get _ hs 0 _ h0 (Nat.sub_lt h0 one_pos) (Nat.zero_le _)
    rw [clampQ_eq _ h0 q, clampQ_eq _ h0 _]
    exact clamp_core _ _ _ hab

lemma clampQ_get (xs : List ℚ) (hs : xs.Sorted (· < ·)) (i : ℕ)
    (hi : i < xs.length) : clampQ xs (xs.get ⟨i, hi⟩) = xs.get ⟨i, hi⟩ := by
  have h0 : 0 < xs.length := Nat.lt_of_le_of_lt (Nat.zero_le i) hi
  have ha : xs.get ⟨0, h0⟩ ≤ xs.get ⟨i, hi⟩ :=
    get_le_get _ hs 0 i h0 hi (Nat.zero_le _)
  have hb : xs.get ⟨i, hi⟩ ≤ xs.get ⟨xs.length - 1, Nat.sub_lt h0 one_pos⟩ :=
    get_le_get _ hs i _ hi (Nat.sub_lt h0 one_pos) (by omega)
  rw [clampQ_eq _ h0, min_eq_right hb, max_eq_right ha]

lemma cellIdx_get (xs : List ℚ) (hs : xs.Sorted (· < ·)) (i : ℕ)
    (hi : i < xs.length) :
    cellIdx xs (xs.get ⟨i, hi⟩) = min i (xs.length - 2) := by
  unfold cellIdx
  rw [countP_le_get xs hs i hi]
  simp

lemma cell_at_node (xs : List ℚ) (hs : xs.Sorted (· < ·)) (i : ℕ)
    (hi : i < xs.length) :
    (cellIdx xs (xs.get ⟨i, hi⟩) = i ∧ cellFrac xs (xs.get ⟨i, hi⟩) = 0) ∨
    (1 ≤ i ∧ cellIdx xs (xs.get ⟨i, hi⟩) = i - 1 ∧
      cellFrac xs (xs.get ⟨i, hi⟩) = 1) := by
  by_cases hcase : i ≤ xs.length - 2
  · left
    have hidx : cellIdx xs (xs.get ⟨i, hi⟩) = i := by
      rw [cellIdx_get xs hs i hi, min_eq_left hcase]
    refine ⟨hidx, ?_⟩
    unfold cellFrac
    rw [hidx, getD_get _ 0 i hi]
    simp
  · right
    have h1 : 1 ≤ i := by omega
    have hieq : i = xs.length - 1 := by omega
    have hidx : cellIdx xs (xs.get ⟨i, hi⟩) = i - 1 := by
      rw [cellIdx_get xs hs i hi, min_eq_right (by omega : xs.length - 2 ≤ i)]
      omega
    refine ⟨h1, hidx, ?_⟩
    unfold cellFrac
    rw [hidx, show i - 1 + 1 = i from by omega, getD_get _ 0 i hi,
      getD_get _ 0 (i - 1) (by omega)]
    have hne : xs.get ⟨i, hi⟩ - xs.get ⟨i - 1, by omega⟩ ≠ 0 := by
      have := hs.rel_get_of_lt
        (Fin.mk_lt_mk.mpr (by omega : i - 1 < i) :
          (⟨i - 1, by omega⟩ : Fin xs.length) < ⟨i, hi⟩)
      exact sub_ne_zero.mpr (ne_of_gt this)
    exact div_self hne

lemma lerp_zero (a b : ℚ) : lerp a b 0 = a := by unfold lerp; ring

lemma lerp_one (a b : ℚ) : lerp a b 1 = b := by unfold lerp; ring

/-! ## Claims about the interpolator -/

/-- Claim C1: for every source grid (`xin` strictly increasing of length M,
`yin` strictly increasing of length N) with flattened value grid `zin`, and
every grid intersection `(xin[i], yin[j])`, calling `interp2lin` with that
exact coordinate as the query point returns `zin[i, j]` (flat index
`j * M + i`). -/
theorem interp2lin_exact_at_grid_node (xin yin zin : List ℚ)
    (hx : xin.Sorted (· < ·)) (hy : yin.Sorted (· < ·))
    (hz : zin.length = xin.length * yin.length) (i j : ℕ)
    (hi : i < xin.length) (hj : j < yin.length) :
    interp2lin xin yin zin [xin.get ⟨i, hi⟩] [yin.get ⟨j, hj⟩] =
      Except.ok [zin.getD (j * xin.length + i) 0] := by
  unfold interp2lin
  rw [if_pos ⟨hz, rfl⟩]
  show Except.ok [interpAt xin yin zin (xin.get ⟨i, hi⟩) (yin.get ⟨j, hj⟩)] = _
  congr 1
  congr 1
  simp only [interpAt]
  rw [clampQ_get xin hx i hi, clampQ_get yin hy j hj]
  rcases cell_at_node xin hx i hi with ⟨hix, htx⟩ | ⟨h1x, hix, htx⟩ <;>
    rcases cell_at_node yin hy j hj with ⟨hjy, hty⟩ | ⟨h1y, hjy, hty⟩ <;>
    rw [hix, hjy, htx, hty] <;>
    simp only [lerp_zero, lerp_one] <;>
    first
      | rfl
      | (rw [Nat.sub_add_cancel h1x] <;> rfl)
      | (rw [Nat.sub_add_cancel h1y] <;> rfl)
      | (rw [Nat.sub_add_cancel h1x, Nat.sub_add_cancel h1y] <;> rfl)

/-- Claim C2: `interp2lin` at any query point returns the same value it
returns at the coordinate-wise clamped query point; in particular a query
outside the grid bounds returns the value at the nearest in-bounds boundary
point — boundary values are held, never extrapolated. -/
theorem interp2lin_boundary_clamp (xin yin zin : List ℚ)
    (hx : xin.Sorted (· < ·)) (hy : yin.Sorted (· < ·))
    (hz : zin.length = xin.length * yin.length) (qx qy : ℚ) :
    interp2lin xin yin zin [qx] [qy] =
      interp2lin xin yin zin [clampQ xin qx] [clampQ yin qy] := by
  unfold interp2lin
  rw [if_pos ⟨hz, rfl⟩, if_pos ⟨hz, rfl⟩]
  show Except.ok [interpAt xin yin zin qx qy] =
    Except.ok [interpAt xin yin zin (clampQ xin qx) (clampQ yin qy)]
  congr 1
  congr 1
  simp only [interpAt]
  rw [clampQ_idem xin hx qx, clampQ_idem yin hy qy]

/-- Claim C7: `interp2lin` fails with `DimensionMismatch` exactly when the
flattened value grid's length disagrees with the product of the axis
lengths, or when the query vectors differ in length; on such a failure no
interpolation result is produced (the error carries no payload). -/
theorem interp2lin_dimension_mismatch_iff (xin yin zin xou you : List ℚ) :
    interp2lin xin yin zin xou you =
        Except.error SmoothError.DimensionMismatch ↔
      (zin.length ≠ xin.length * yin.length ∨ xou.length ≠ you.length) := by
  unfold interp2lin
  split
  case isTrue h => simp [h.1, h.2]
  case isFalse h =>
    simp only [not_and_or] at h
    simp [h]

/-- Claim C10: at the public interface `interp2lin` receives the grid values
`zin` as a single flat vector, and a call can only succeed when its length
equals `length xin * length yin`. -/
theorem interp2lin_flat_zin_shape (xin yin zin xou you out : List ℚ)
    (h : interp2lin xin yin zin xou you = Except.ok out) :
    zin.length = xin.length * yin.length := by
  unfold interp2lin at h
  split at h
  case isTrue hc => exact hc.1
  case isFalse => cases h

/-- Concrete witness for C1: the spec's end-to-end example grid, queried at
the node (1, 1), returns the stored corner value 2. -/
theorem interp2lin_exact_at_grid_node_witness :
    interp2lin [0, 1] [0, 1] [0, 1, 1, 2] [1] [1] = Except.ok [2] :=
  interp2lin_exact_at_grid_node [0, 1] [0, 1] [0, 1, 1, 2]
    (by decide) (by decide) (by decide) 1 1 (by decide) (by decide)

/-- Concrete witness for C2: an out-of-bounds query `(5, -3)` on the spec's
example grid returns the same result as the clamped boundary query. -/
theorem interp2lin_boundary_clamp_witness :
    interp2lin [0, 1] [0, 1] [0, 1, 1, 2] [5] [-3] =
      interp2lin [0, 1] [0, 1] [0, 1, 1, 2] [clampQ [0, 1] 5]
        [clampQ [0, 1] (-3)] :=
  interp2lin_boundary_clamp [0, 1] [0, 1] [0, 1, 1, 2]
    (by decide) (by decide) (by decide) 5 (-3)

/-- Concrete witness for C10: a successful singleton call forces the
flattened shape equation `1 = 1 * 1`. -/
theorem interp2lin_flat_zin_shape_witness :
    ([(0 : ℚ)] : List ℚ).length = ([(0 : ℚ)] : List ℚ).length * ([(0 : ℚ)] : List ℚ).length :=
  interp2lin_flat_zin_shape [0] [0] [0] [0] [0] [interpAt [0] [0] [0] 0 0] rfl

/-! ## Helper lemmas for the smoothers -/

lemma mullwlsk_eq_body (bw : ℚ × ℚ) (kernel : String) (tPairs : List (ℚ × ℚ))
    (cxxn win xgrid ygrid : List ℚ) (bwCheck : Bool) (kt : KernelType)
    (hdim : tPairs.length = cxxn.length ∧ cxxn.length = win.length)
    (hk : kernelOfName kernel = some kt) :
    mullwlsk bw kernel tPairs cxxn win xgrid ygrid bwCheck =
      mullwlskBody bw kt tPairs cxxn win xgrid ygrid bwCheck := by
  unfold mullwlsk
  rw [if_pos hdim, hk]

lemma rotatedmullwlsk_eq_body (bw : ℚ × ℚ) (kernel : String)
    (tPairs : List (ℚ × ℚ)) (cxxn win : List ℚ) (xygrid : List (ℚ × ℚ))
    (npoly : Nat) (bwCheck : Bool) (kt : KernelType)
    (hdim : tPairs.length = cxxn.length ∧ cxxn.length = win.length)
    (hk : kernelOfName kernel = some kt) :
    rotatedmullwlsk bw kernel tPairs cxxn win xygrid npoly bwCheck =
      rotatedmullwlskBody bw kt tPairs cxxn win xygrid npoly bwCheck := by
  unfold rotatedmullwlsk
  rw [if_pos hdim, hk]

lemma wS_z_const (kt : KernelType) (bw g : ℚ × ℚ) (W : List Obs) (c : ℚ)
    (h : ∀ o ∈ W, o.2.1 = c) (f : Obs → ℚ) :
    wS kt bw g W (fun o => f o * o.2.1) = c * wS kt bw g W f := by
  unfold wS
  rw [← List.sum_map_mul_left]
  exact congrArg List.sum (List.map_congr_left fun o ho => by
    simp only [h o ho]; ring)

lemma numW_const (kt : KernelType) (bw g : ℚ × ℚ) (W : List Obs) (c : ℚ)
    (h : ∀ o ∈ W, o.2.1 = c) : numW kt bw g W = c * detW kt bw g W := by
  have h0 : wS kt bw g W (fun o => o.2.1) = c * wS kt bw g W (fun _ => 1) := by
    simpa using wS_z_const kt bw g W c h (fun _ => 1)
  have h1 : wS kt bw g W (fun o => (o.1.1 - g.1) * o.2.1) =
      c * wS kt bw g W (fun o => o.1.1 - g.1) :=
    wS_z_const kt bw g W c h (fun o => o.1.1 - g.1)
  have h2 : wS kt bw g W (fun o => (o.1.2 - g.2) * o.2.1) =
      c * wS kt bw g W (fun o => o.1.2 - g.2) :=
    wS_z_const kt bw g W c h (fun o => o.1.2 - g.2)
  unfold numW detW
  rw [h0, h1, h2]
  unfold det3
  ring

lemma z_mem_of_mem_window (tPairs : List (ℚ × ℚ)) (cxxn win : List ℚ)
    (bw g : ℚ × ℚ) (o : Obs)
    (ho : o ∈ window bw (tPairs.zip (cxxn.zip win)) g) : o.2.1 ∈ cxxn := by
  have hmem : o ∈ tPairs.zip (cxxn.zip win) := List.mem_of_mem_filter ho
  obtain ⟨p, z, w⟩ := o
  exact (List.of_mem_zip ((List.of_mem_zip hmem).2)).1

/-! ## Claims about `mullwlsk` -/

/-- Claim C3: under valid structural inputs, the full smoothing pass always
returns a surface (it never fails as a whole), and any output cell whose
window holds fewer than 3 distinct coordinate points or whose local
weighted normal equations are singular holds the no-estimate sentinel. -/
theorem mullwlsk_sentinel_cells (bw : ℚ × ℚ) (kernel : String)
    (tPairs : List (ℚ × ℚ)) (cxxn win xgrid ygrid : List ℚ) (kt : KernelType)
    (hdim : tPairs.length = cxxn.length ∧ cxxn.length = win.length)
    (hk : kernelOfName kernel = some kt) (hbw : 0 < bw.1 ∧ 0 < bw.2)
    (i j : ℕ) (hi : i < xgrid.length) (hj : j < ygrid.length)
    (hbad : distinctPts (window bw (tPairs.zip (cxxn.zip win))
          (xgrid.get ⟨i, hi⟩, ygrid.get ⟨j, hj⟩)) < 3 ∨
        detW kt bw (xgrid.get ⟨i, hi⟩, ygrid.get ⟨j, hj⟩)
          (window bw (tPairs.zip (cxxn.zip win))
            (xgrid.get ⟨i, hi⟩, ygrid.get ⟨j, hj⟩)) = 0) :
    ∃ S, mullwlsk bw kernel tPairs cxxn win xgrid ygrid false =
        Except.ok (MullResult.surface S) ∧
      (S.getD i []).getD j (some 0) = none := by
  refine ⟨xgrid.map fun gx => ygrid.map fun gy =>
      localFit kt bw (tPairs.zip (cxxn.zip win)) (gx, gy), ?_, ?_⟩
  · rw [mullwlsk_eq_body bw kernel tPairs cxxn win xgrid ygrid false kt hdim hk]
    unfold mullwlskBody
    rw [if_pos hbw]
    rfl
  · have hi' : i < (xgrid.map fun gx => ygrid.map fun gy =>
        localFit kt bw (tPairs.zip (cxxn.zip win)) (gx, gy)).length := by
      simpa using hi
    rw [List.getD_eq_getElem _ _ hi', List.getElem_map]
    have hj' : j < (ygrid.map fun gy =>
        localFit kt bw (tPairs.zip (cxxn.zip win)) (xgrid[i], gy)).length := by
      simpa using hj
    rw [List.getD_eq_getElem _ _ hj', List.getElem_map]
    rw [List.get_eq_getElem, List.get_eq_getElem] at hbad
    unfold localFit
    rcases hbad with h | h
    · rw [if_pos h]
    · by_cases hc : distinctPts (window bw (tPairs.zip (cxxn.zip win))
          (xgrid[i], ygrid[j])) < 3
      · rw [if_pos hc]
      · rw [if_neg hc, if_pos h]

/-- Claim C5: with valid structural inputs and `bwCheck = true`, a bandwidth
too small for any grid point's window to cover 3 distinct points yields the
fail signal (and no surface), while a bandwidth supporting every grid point
yields the pass signal. -/
theorem mullwlsk_bwcheck_signal (bw : ℚ × ℚ) (kernel : String)
    (tPairs : List (ℚ × ℚ)) (cxxn win xgrid ygrid : List ℚ) (kt : KernelType)
    (hdim : tPairs.length = cxxn.length ∧ cxxn.length = win.length)
    (hk : kernelOfName kernel = some kt) (hbw : 0 < bw.1 ∧ 0 < bw.2) :
    (xgrid ≠ [] → ygrid ≠ [] →
      (∀ gx ∈ xgrid, ∀ gy ∈ ygrid,
        distinctPts (window bw (tPairs.zip (cxxn.zip win)) (gx, gy)) < 3) →
      mullwlsk bw kernel tPairs cxxn win xgrid ygrid true =
        Except.ok (MullResult.checked false)) ∧
    ((∀ gx ∈ xgrid, ∀ gy ∈ ygrid,
        3 ≤ distinctPts (window bw (tPairs.zip (cxxn.zip win)) (gx, gy))) →
      mullwlsk bw kernel tPairs cxxn win xgrid ygrid true =
        Except.ok (MullResult.checked true)) := by
  have hred : mullwlsk bw kernel tPairs cxxn win xgrid ygrid true =
      Except.ok (MullResult.checked (xgrid.all fun gx => ygrid.all fun gy =>
        decide (3 ≤ distinctPts
          (window bw (tPairs.zip (cxxn.zip win)) (gx, gy))))) := by
    rw [mullwlsk_eq_body bw kernel tPairs cxxn win xgrid ygrid true kt hdim hk]
    unfold mullwlskBody
    rw [if_pos hbw]
    rfl
  constructor
  · intro hxne hyne hlt
    rw [hred]
    have hall : (xgrid.all fun gx => ygrid.all fun gy =>
        decide (3 ≤ distinctPts
          (window bw (tPairs.zip (cxxn.zip win)) (gx, gy)))) = false := by
      obtain ⟨gx, hgx⟩ := List.exists_mem_of_ne_nil xgrid hxne
      obtain ⟨gy, hgy⟩ := List.exists_mem_of_ne_nil ygrid hyne
      apply List.all_eq_false.mpr
      refine ⟨gx, hgx, ?_⟩
      simp only [List.all_eq_true, decide_eq_true_eq]
      push_neg
      exact ⟨gy, hgy, hlt gx hgx gy hgy⟩
    rw [hall]
  · intro hge
    rw [hred]
    have hall : (xgrid.all fun gx => ygrid.all fun gy =>
        decide (3 ≤ distinctPts
          (window bw (tPairs.zip (cxxn.zip win)) (gx, gy)))) = true :=
      List.all_eq_true.mpr fun gx hgx =>
        List.all_eq_true.mpr fun gy hgy => decide_eq_true (hge gx hgx gy hgy)
    rw [hall]

/-- Claim C8: any call of `mullwlsk` or `rotatedmullwlsk` whose kernel
identifier is outside the closed supported set fails with `UnknownKernel`
before any smoothing, returning no partial result. -/
theorem unknown_kernel_rejected (bw : ℚ × ℚ) (kernel : String)
    (tPairs : List (ℚ × ℚ)) (cxxn win xgrid ygrid : List ℚ)
    (xygrid : List (ℚ × ℚ)) (npoly : Nat) (bwCheck : Bool)
    (hdim : tPairs.length = cxxn.length ∧ cxxn.length = win.length)
    (hk : kernelOfName kernel = none) :
    mullwlsk bw kernel tPairs cxxn win xgrid ygrid bwCheck =
        Except.error SmoothError.UnknownKernel ∧
      rotatedmullwlsk bw kernel tPairs cxxn win xygrid npoly bwCheck =
        Except.error SmoothError.UnknownKernel := by
  constructor
  · unfold mullwlsk
    rw [if_pos hdim, hk]
  · unfold rotatedmullwlsk
    rw [if_pos hdim, hk]

/-- Claim C4 (amended): if every observed value equals a constant `c`, then
every output grid cell whose window holds at least 3 distinct coordinate
points AND whose local weighted normal equations are nonsingular holds
exactly `some c`. -/
theorem mullwlsk_const_reproduction (bw : ℚ × ℚ) (kernel : String)
    (tPairs : List (ℚ × ℚ)) (cxxn win xgrid ygrid : List ℚ) (kt : KernelType)
    (c : ℚ)
    (hdim : tPairs.length = cxxn.length ∧ cxxn.length = win.length)
    (hk : kernelOfName kernel = some kt) (hbw : 0 < bw.1 ∧ 0 < bw.2)
    (hc : ∀ z ∈ cxxn, z = c)
    (i j : ℕ) (hi : i < xgrid.length) (hj : j < ygrid.length)
    (hsupp : 3 ≤ distinctPts (window bw (tPairs.zip (cxxn.zip win))
        (xgrid.get ⟨i, hi⟩, ygrid.get ⟨j, hj⟩)))
    (hdet : detW kt bw (xgrid.get ⟨i, hi⟩, ygrid.get ⟨j, hj⟩)
        (window bw (tPairs.zip (cxxn.zip win))
          (xgrid.get ⟨i, hi⟩, ygrid.get ⟨j, hj⟩)) ≠ 0) :
    ∃ S, mullwlsk bw kernel tPairs cxxn win xgrid ygrid false =
        Except.ok (MullResult.surface S) ∧
      (S.getD i []).getD j none = some c := by
  refine ⟨xgrid.map fun gx => ygrid.map fun gy =>
      localFit kt bw (tPairs.zip (cxxn.zip win)) (gx, gy), ?_, ?_⟩
  · rw [mullwlsk_eq_body bw kernel tPairs cxxn win xgrid ygrid false kt hdim hk]
    unfold mullwlskBody
    rw [if_pos hbw]
    rfl
  · have hi' : i < (xgrid.map fun gx => ygrid.map fun gy =>
        localFit kt bw (tPairs.zip (cxxn.zip win)) (gx, gy)).length := by
      simpa using hi
    rw [List.getD_eq_getElem _ _ hi', List.getElem_map]
    have hj' : j < (ygrid.map fun gy =>
        localFit kt bw (tPairs.zip (cxxn.zip win)) (xgrid[i], gy)).length := by
      simpa using hj
    rw [List.getD_eq_getElem _ _ hj', List.getElem_map]
    rw [List.get_eq_getElem, List.get_eq_getElem] at hsupp hdet
    unfold localFit
    rw [if_neg (not_lt.mpr hsupp), if_neg hdet]
    have hz : ∀ o ∈ window bw (tPairs.zip (cxxn.zip win)) (xgrid[i], ygrid[j]),
        o.2.1 = c := fun o ho =>
      hc o.2.1 (z_mem_of_mem_window tPairs cxxn win bw (xgrid[i], ygrid[j]) o ho)
    rw [numW_const kt bw (xgrid[i], ygrid[j]) _ c hz, mul_div_assoc,
      div_self hdet, mul_one]

set_option maxRecDepth 100000 in
/-- Counterexample to Claim C4 as stated: all observed values equal 5 and
the (single) output cell's window holds 3 distinct coordinate points, yet
the cell holds the sentinel `none` rather than 5, because the three points
are collinear and the local normal equations are singular. -/
theorem mullwlsk_const_counterexample :
    (∀ z ∈ ([5, 5, 5] : List ℚ), z = 5) ∧
      3 ≤ distinctPts (window (10, 10)
        (([((0 : ℚ), (0 : ℚ)), (1, 1), (2, 2)]).zip
          (([5, 5, 5] : List ℚ).zip ([1, 1, 1] : List ℚ))) (0, 0)) ∧
      (mullwlsk (10, 10) "epan" [(0, 0), (1, 1), (2, 2)] [5, 5, 5] [1, 1, 1]
          [0] [0] false).toOption = some (MullResult.surface [[none]]) :=
  ⟨by decide, by with_unfolding_all decide, by with_unfolding_all decide⟩

/-! ## Claims about `rotatedmullwlsk` -/

/-- Claim C6: under valid structural inputs (and `npoly` in {1, 2}), the
full pass of `rotatedmullwlsk` returns one estimate per query point: an
ordered sequence whose length equals the number of query points. -/
theorem rotatedmullwlsk_output_length (bw : ℚ × ℚ) (kernel : String)
    (tPairs : List (ℚ × ℚ)) (cxxn win : List ℚ) (xygrid : List (ℚ × ℚ))
    (npoly : Nat) (kt : KernelType)
    (hdim : tPairs.length = cxxn.length ∧ cxxn.length = win.length)
    (hk : kernelOfName kernel = some kt) (hbw : 0 < bw.1 ∧ 0 < bw.2)
    (hnp : npoly = 1 ∨ npoly = 2) :
    ∃ v, rotatedmullwlsk bw kernel tPairs cxxn win xygrid npoly false =
        Except.ok (RotResult.estimates v) ∧ v.length = xygrid.length := by
  refine ⟨xygrid.map fun q => rotFit kt bw npoly (tPairs.zip (cxxn.zip win)) q,
    ?_, by simp⟩
  rw [rotatedmullwlsk_eq_body bw kernel tPairs cxxn win xygrid npoly false kt
    hdim hk]
  unfold rotatedmullwlskBody
  rw [if_pos hbw, if_pos hnp]
  rfl

/-- Claim C9: under valid structural inputs, `rotatedmullwlsk` fails with
`InvalidPolynomialOrder` for any `npoly` outside {1, 2}; for `npoly` in
{1, 2} the call proceeds to estimates, with the local design rows being
`[1, u, v]` for `npoly = 1` and `[1, u, v, u², uv, v²]` for `npoly = 2` in
the rotated offsets. -/
theorem rotatedmullwlsk_npoly_contract (bw : ℚ × ℚ) (kernel : String)
    (tPairs : List (ℚ × ℚ)) (cxxn win : List ℚ) (xygrid : List (ℚ × ℚ))
    (bwCheck : Bool) (kt : KernelType)
    (hdim : tPairs.length = cxxn.length ∧ cxxn.length = win.length)
    (hk : kernelOfName kernel = some kt) (hbw : 0 < bw.1 ∧ 0 < bw.2) :
    (∀ npoly : Nat, ¬(npoly = 1 ∨ npoly = 2) →
        rotatedmullwlsk bw kernel tPairs cxxn win xygrid npoly bwCheck =
          Except.error SmoothError.InvalidPolynomialOrder) ∧
      (∀ npoly : Nat, (npoly = 1 ∨ npoly = 2) →
        ∃ v, rotatedmullwlsk bw kernel tPairs cxxn win xygrid npoly false =
          Except.ok (RotResult.estimates v)) ∧
      (∀ u v : ℚ, designRow 1 u v = [1, u, v]) ∧
      (∀ u v : ℚ, designRow 2 u v = [1, u, v, u^2, u*v, v^2]) := by
  refine ⟨?_, ?_, fun u v => rfl, fun u v => rfl⟩
  · intro npoly hnp
    rw [rotatedmullwlsk_eq_body bw kernel tPairs cxxn win xygrid npoly bwCheck
      kt hdim hk]
    unfold rotatedmullwlskBody
    rw [if_pos hbw, if_neg hnp]
  · intro npoly hnp
    refine ⟨xygrid.map fun q =>
      rotFit kt bw npoly (tPairs.zip (cxxn.zip win)) q, ?_⟩
    rw [rotatedmullwlsk_eq_body bw kernel tPairs cxxn win xygrid npoly false kt
      hdim hk]
    unfold rotatedmullwlskBody
    rw [if_pos hbw, if_pos hnp]
    rfl

/-! ## Concrete witnesses for the smoother claims -/

set_option maxRecDepth 100000 in
/-- Concrete witness for C3: a single observation cannot support a local
linear fit, so the single output cell is the sentinel while the call still
returns a surface. -/
theorem mullwlsk_sentinel_cells_witness :
    ∃ S, mullwlsk (1, 1) "epan" [(0, 0)] [1] [1] [0] [0] false =
        Except.ok (MullResult.surface S) ∧
      (S.getD 0 []).getD 0 (some 0) = none :=
  mullwlsk_sentinel_cells (1, 1) "epan" [(0, 0)] [1] [1] [0] [0]
    KernelType.epan (by decide) (by decide) (by decide) 0 0 (by decide)
    (by decide) (Or.inl (by with_unfolding_all decide))

set_option maxRecDepth 100000 in
/-- Concrete witness for the amended C4: three non-collinear points with
constant value 5 inside the window reproduce exactly 5. -/
theorem mullwlsk_const_reproduction_witness :
    ∃ S, mullwlsk (10, 10) "epan" [(0, 0), (1, 0), (0, 1)] [5, 5, 5]
        [1, 1, 1] [0] [0] false = Except.ok (MullResult.surface S) ∧
      (S.getD 0 []).getD 0 none = some 5 :=
  mullwlsk_const_reproduction (10, 10) "epan" [(0, 0), (1, 0), (0, 1)]
    [5, 5, 5] [1, 1, 1] [0] [0] KernelType.epan 5 (by decide) (by decide)
    (by decide) (by decide) 0 0 (by decide) (by decide)
    (by with_unfolding_all decide) (by with_unfolding_all decide)

set_option maxRecDepth 100000 in
/-- Concrete witness for C5: a bandwidth probe over a grid whose only cell
cannot cover 3 distinct points returns the fail signal. -/
theorem mullwlsk_bwcheck_signal_witness :
    mullwlsk (1, 1) "epan" [(0, 0)] [1] [1] [0] [0] true =
      Except.ok (MullResult.checked false) :=
  (mullwlsk_bwcheck_signal (1, 1) "epan" [(0, 0)] [1] [1] [0] [0]
      KernelType.epan (by decide) (by decide) (by decide)).1
    (by decide) (by decide) (by with_unfolding_all decide)

/-- Concrete witness for C6: a valid rotated call over two query points
yields a two-entry estimate vector. -/
theorem rotatedmullwlsk_output_length_witness :
    ∃ v, rotatedmullwlsk (10, 10) "epan" [(0, 0), (1, 0), (0, 1)] [5, 5, 5]
        [1, 1, 1] [(0, 0), (1, 1)] 1 false =
        Except.ok (RotResult.estimates v) ∧ v.length = 2 :=
  rotatedmullwlsk_output_length (10, 10) "epan" [(0, 0), (1, 0), (0, 1)]
    [5, 5, 5] [1, 1, 1] [(0, 0), (1, 1)] 1 KernelType.epan (by decide)
    (by decide) (by decide) (Or.inl rfl)

/-- Concrete witness for C8: the unrecognized kernel name "cosine" is
rejected by both smoothers. -/
theorem unknown_kernel_rejected_witness :
    mullwlsk (1, 1) "cosine" [(0, 0)] [1] [1] [0] [0] false =
        Except.error SmoothError.UnknownKernel ∧
      rotatedmullwlsk (1, 1) "cosine" [(0, 0)] [1] [1] [(0, 0)] 1 false =
        Except.error SmoothError.UnknownKernel :=
  unknown_kernel_rejected (1, 1) "cosine" [(0, 0)] [1] [1] [0] [0] [(0, 0)] 1
    false (by decide) (by decide)

/-- Concrete witness for C9: polynomial order 0 is rejected with
`InvalidPolynomialOrder` on an otherwise valid call. -/
theorem rotatedmullwlsk_npoly_contract_witness :
    rotatedmullwlsk (1, 1) "epan" [(0, 0)] [1] [1] [(0, 0)] 0 false =
      Except.error SmoothError.InvalidPolynomialOrder :=
  (rotatedmullwlsk_npoly_contract (1, 1) "epan" [(0, 0)] [1] [1] [(0, 0)]
      false KernelType.epan (by decide) (by decide) (by decide)).1 0
    (by decide)

end TPACE
